import Mathlib

/-!
Shallow embedding of `jobs_notify.py` / `main.py` (TimesJobs job notifier).

Python strings are modelled as `List Char` (`Str`).  BeautifulSoup element
lookups (`find`, attribute chains) are modelled as `Option` fields of a
`Fragment` record: `none` means the element is absent, in which case the
Python code would raise (AttributeError / UnboundLocalError); such uncaught
raises are modelled as `none` results of the surrounding operation.  The
SMTP session is modelled by an environment stating which step (connect,
starttls, login, sendmail) raises which exception, and a trace recording
whether the session was opened and closed and whether the mail was sent.
-/

/-- Python strings, modelled as lists of characters. -/
abbrev Str := List Char

/-- Python `str.strip()`: drop leading and trailing whitespace. -/
def pyStrip (s : Str) : Str :=
  ((s.dropWhile Char.isWhitespace).reverse.dropWhile Char.isWhitespace).reverse

/-- Python `str.lower()`: lower-case every character. -/
def pyLower (s : Str) : Str := s.map Char.toLower

/-- Python `needle in hay` on strings: contiguous-substring test. -/
def pyContains (needle hay : Str) : Bool := decide (needle <:+: hay)

/-- Python `s.split('\n')`: split at every newline, keeping empty segments
(`''.split('\n') == ['']`). -/
def pySplitNL : Str → List Str
  | [] => [[]]
  | c :: cs =>
    if c = '\n' then [] :: pySplitNL cs
    else
      match pySplitNL cs with
      | s :: rest => (c :: s) :: rest
      | [] => [[c]]

/-- Python `', '.join(xs)`. -/
def commaJoin (xs : List Str) : Str := List.intercalate (", ".data) xs

/-- One job-listing fragment (`li.clearfix.job-bx.wht-shd-bx` subtree), as the
scraper accesses it.  Each field is the text / attribute the code reads,
`none` when the element is absent from the fragment:
`sim_posted` = text of `span.sim-posted`; `h2_title` = text of the first `h2`;
`comp_name` = text of the `div/h3 .joblist-comp-name` element;
`header_h2_a_href` = the `href` of the anchor at `job.header.h2.a`;
`srp_skills` = text of the `div/span .srp-skills` container. -/
structure Fragment where
  sim_posted : Option Str
  h2_title : Option Str
  comp_name : Option Str
  header_h2_a_href : Option Str
  srp_skills : Option Str
deriving DecidableEq, Repr

/-- The extracted job dictionary: title, company, skills list, link. -/
structure JobRecord where
  title : Str
  company : Str
  skills : List Str
  link : Str
deriving DecidableEq, Repr

/-- The notifier object: url, stored jobs (set by `fetch_jobs`), mail
configuration. -/
structure JobNotifier where
  url : Str
  jobs : List Fragment
  from_email : Str
  to_email : Str
  password : Str
deriving DecidableEq, Repr

/-- `JobNotifier.__init__`: stores the configuration and an empty jobs list. -/
def JobNotifier.init (url from_email to_email password : Str) : JobNotifier :=
  { url := url, jobs := [], from_email := from_email, to_email := to_email,
    password := password }

/-- One HTTP GET outcome: the status code, and the listing fragments that
parsing the body with `find_all('li', class_='clearfix job-bx wht-shd-bx')`
yields (relevant only when the status is 200). -/
structure HttpResponse where
  status : Nat
  listings : List Fragment
deriving DecidableEq, Repr

/-- The log line `print(f"Failed to retrieve jobs. Status code: {...}")`. -/
def fetchFailMsg (status : Nat) : Str :=
  "Failed to retrieve jobs. Status code: ".data ++ Nat.toDigits 10 status

/-- Result of `fetch_jobs`: the updated notifier, the returned list
(`return self.jobs`), and the printed log lines. -/
structure FetchResult where
  notifier : JobNotifier
  jobs : List Fragment
  log : List Str
deriving DecidableEq, Repr

/-- `JobNotifier.fetch_jobs`: on status 200 overwrite `self.jobs` with the
parsed listings; otherwise print the failure line and leave `self.jobs`
untouched; either way return `self.jobs`. -/
def JobNotifier.fetch_jobs (self : JobNotifier) (resp : HttpResponse) :
    FetchResult :=
  if resp.status = 200 then
    { notifier := { self with jobs := resp.listings }, jobs := resp.listings,
      log := [] }
  else
    { notifier := self, jobs := self.jobs, log := [fetchFailMsg resp.status] }

/-- `JobNotifier.is_job_recent`: find `span.sim-posted`; `none` when the span
is absent (the Python dereference would raise AttributeError).  Otherwise the
job is recent iff the stripped text is non-empty (truthy) and the lowered
text contains `'few'`. -/
def is_job_recent (job : Fragment) : Option Bool :=
  match job.sim_posted with
  | none => none
  | some job_posted_date =>
    some ((!(pyStrip job_posted_date).isEmpty) &&
      pyContains ("few".data) (pyLower job_posted_date))

/-- The list comprehension
`[skill.strip().lower() for skill in skills.text.split('\n') if skill.strip()]`. -/
def skillListOf (text : Str) : List Str :=
  (pySplitNL text).filterMap fun skill =>
    if (pyStrip skill).isEmpty then none else some (pyLower (pyStrip skill))

/-- `JobNotifier.extract_job_details`: requires the `h2` title, the
company-name element and the `header > h2 > a` anchor (a missing one makes
the Python code raise AttributeError at the dereference: result `none`).
When the skills container is absent the Python code prints "Skills: Not
found" and then raises UnboundLocalError at `'skills': skill_list`, since
`skill_list` is only assigned inside the `if skills:` branch: result `none`
as well.  Only a fragment with all four elements yields a record. -/
def extract_job_details (job : Fragment) : Option JobRecord :=
  match job.h2_title, job.comp_name, job.header_h2_a_href with
  | some job_title, some company_name, some job_link =>
    match job.srp_skills with
    | some skills =>
      some { title := pyStrip job_title, company := pyStrip company_name,
             skills := skillListOf skills, link := job_link }
    | none => none
  | _, _, _ => none

/-- Fixed banner of the digest (`html_body` initial value, verbatim from the
source's triple-quoted literal). -/
def digestHeader : Str :=
  "\n            <html>\n                <body style=\"font-family: Calibri, sans-serif; background-color: #f1f5f9; padding: 20px;\">\n                    <div style=\"max-width: 650px; margin: auto; background-color: #ffffff; border-radius: 10px; padding: 30px; box-shadow: 0 2px 10px rgba(0,0,0,0.1);\">\n                        <h2 style=\"color:#1a73e8; text-align: center;\">📊 Data Analyst Job Opportunities</h2>\n                        <p style=\"color: #333333; font-size: 15px;\">Hello 👋, here are the latest data analyst job openings curated just for you:</p>\n                        <hr style=\"border: none; border-top: 1px solid #e2e8f0; margin: 20px 0;\"/>\n            ".data

/-- Per-job f-string, part before `{job['title']}`. -/
def blockPre : Str :=
  "\n                    <div style=\"background-color: #f9fafb; padding: 20px; margin-bottom: 15px; border-radius: 8px; border: 1px solid #e2e8f0;\">\n                        <h3 style=\"margin: 0 0 10px 0; color: #0d47a1; font-weight: bold;\">".data

/-- Per-job f-string, between `{job['title']}` and `{job['company']}`. -/
def blockAfterTitle : Str :=
  "</h3>\n                        <p style=\"margin: 5px 0;\">".data

/-- Per-job f-string, between `{job['company']}` and the joined skills. -/
def blockAfterCompany : Str :=
  "</p>\n                        <p style=\"margin: 5px 0;\"><strong>Skills:<strong>".data

/-- Opening of the apply anchor, up to and including `href=\"`. -/
def anchorOpen : Str := "<a href=\"".data

/-- Rest of the apply anchor after the link value: style, target, the
"Apply Now" label and the closing tag. -/
def anchorClose : Str :=
  "\" style=\"color: #1a73e8;\" target=\"_blank\">Apply Now</a>".data

/-- Per-job f-string, between the joined skills and `{job['link']}`. -/
def blockAfterSkills : Str :=
  "</p>\n                        <p style=\"margin: 5px 0;\">".data ++ anchorOpen

/-- Per-job f-string, after `{job['link']}`. -/
def blockAfterLink : Str :=
  anchorClose ++ "</p>\n                    </div>\n                ".data

/-- The complete rendered apply hyperlink for a given link value. -/
def applyAnchor (link : Str) : Str := anchorOpen ++ link ++ anchorClose

/-- One rendered per-job block (`html_body += f\"\"\"...\"\"\"` body). -/
def jobBlock (job : JobRecord) : Str :=
  blockPre ++ job.title ++ blockAfterTitle ++ job.company ++
    blockAfterCompany ++ commaJoin job.skills ++ blockAfterSkills ++
    job.link ++ blockAfterLink

/-- Fixed footer of the digest (final `html_body +=` literal). -/
def digestFooter : Str :=
  "\n                        <p style=\"font-size: 12px; color: #6b7280; text-align: center; margin-top: 30px;\">\n                            This is an automated notification from your TimesJobs Notifier.<br>\n                            Stay curious. Keep growing! 🚀\n                        </p>\n                    </div>\n                </body>\n            </html>\n            ".data

/-- The digest: header, one block per job appended in a loop, footer. -/
def composeBody (all_jobs : List JobRecord) : Str :=
  (List.foldl (fun html_body job => html_body ++ jobBlock job)
    digestHeader all_jobs) ++ digestFooter

/-- The raw MIME message: subject line, headers, blank line, HTML body. -/
def pyMessage (all_jobs : List JobRecord) : Str :=
  "Subject: Data Analyst Job Alerts from TimesJobs!\nMIME-Version: 1.0\nContent-Type: text/html\n\n".data
    ++ composeBody all_jobs

/-- The exception classes caught by `send_email_notification`. -/
inductive SmtpError where
  | connectErr
  | authErr
  | requestErr
  | smtpErr
deriving DecidableEq, Repr

/-- Which step of the SMTP conversation raises which exception (`none` =
the step succeeds). -/
structure SmtpEnv where
  connect_result : Option SmtpError
  starttls_result : Option SmtpError
  login_result : Option SmtpError
  sendmail_result : Option SmtpError
deriving DecidableEq, Repr

/-- The log line printed by the matching `except` clause (for the two
f-string messages, the fixed prefix before the interpolated exception). -/
def exceptMsg : SmtpError → Str
  | .connectErr =>
    "Failed to connect to the email server. Check your internet connection or email server settings.".data
  | .authErr => "Failed to authenticate. Check your email and password.".data
  | .requestErr => "Request error occurred: ".data
  | .smtpErr => "SMTP error occurred: ".data

/-- The success log line. -/
def successMsg : Str := "✅ Email sent successfully!".data

/-- Observable outcome of one `send_email_notification` call: whether the
SMTP session object was created, whether `connection.close()` ran before
returning, whether `sendmail` delivered the message (and which message),
and the printed log lines. -/
structure MailerTrace where
  opened : Bool
  closed : Bool
  sent : Bool
  sent_message : Option Str
  log : List Str
deriving DecidableEq, Repr

/-- `JobNotifier.send_email_notification`: connect, starttls, login, build
the digest, sendmail, close, print success; each caught exception jumps to
its `except` clause, which only prints — `connection.close()` is reached
only on the fully successful path. -/
def send_email_notification (env : SmtpEnv) (all_jobs : List JobRecord) :
    MailerTrace :=
  match env.connect_result with
  | some e =>
    { opened := false, closed := false, sent := false, sent_message := none,
      log := [exceptMsg e] }
  | none =>
    match env.starttls_result with
    | some e =>
      { opened := true, closed := false, sent := false, sent_message := none,
        log := [exceptMsg e] }
    | none =>
      match env.login_result with
      | some e =>
        { opened := true, closed := false, sent := false,
          sent_message := none, log := [exceptMsg e] }
      | none =>
        match env.sendmail_result with
        | some e =>
          { opened := true, closed := false, sent := false,
            sent_message := none, log := [exceptMsg e] }
        | none =>
          { opened := true, closed := true, sent := true,
            sent_message := some (pyMessage all_jobs), log := [successMsg] }

/-- The accumulation loop of `run`: for each fragment, test recency and,
when recent, extract details and append.  `none` models an uncaught raise
from `is_job_recent` or `extract_job_details` aborting the whole run. -/
def processJobs : List Fragment → Option (List JobRecord)
  | [] => some []
  | job :: rest =>
    match is_job_recent job with
    | none => none
    | some b =>
      if b then
        match extract_job_details job with
        | none => none
        | some details => (processJobs rest).map fun l => details :: l
      else processJobs rest

/-- The log line printed when no recent jobs were collected. -/
def noRecentMsg : Str := "No recent jobs found.".data

/-- Observable outcome of one `run` call: the notifier after the run, the
accumulated job records, whether `send_email_notification` was invoked (and
its trace), and the printed log lines. -/
structure RunResult where
  notifier : JobNotifier
  records : List JobRecord
  mailed : Bool
  mail_trace : Option MailerTrace
  log : List Str
deriving DecidableEq, Repr

/-- `JobNotifier.run`: fetch, filter-and-extract each fragment, then mail
when at least one record was collected, otherwise print the no-recent-jobs
line.  `none` models the run dying on an uncaught exception from the loop. -/
def JobNotifier.run (self : JobNotifier) (resp : HttpResponse)
    (env : SmtpEnv) : Option RunResult :=
  let fr := self.fetch_jobs resp
  match processJobs fr.jobs with
  | none => none
  | some all_jobs =>
    if all_jobs.isEmpty then
      some { notifier := fr.notifier, records := all_jobs, mailed := false,
             mail_trace := none, log := fr.log ++ [noRecentMsg] }
    else
      let tr := send_email_notification env all_jobs
      some { notifier := fr.notifier, records := all_jobs, mailed := true,
             mail_trace := some tr, log := fr.log ++ tr.log }

/-- SMTP environment where every step succeeds. -/
def envOk : SmtpEnv :=
  { connect_result := none, starttls_result := none, login_result := none,
    sendmail_result := none }

/-- SMTP environment where `login` raises `SMTPAuthenticationError`. -/
def envAuthFail : SmtpEnv :=
  { connect_result := none, starttls_result := none,
    login_result := some SmtpError.authErr, sendmail_result := none }

/-- A recent fragment with all elements present. -/
def fragComplete : Fragment :=
  { sim_posted := some "Posted a few days ago".data,
    h2_title := some "\n Data Analyst \n".data,
    comp_name := some " TCS ".data,
    header_h2_a_href := some "https://example.com/job1".data,
    srp_skills := some "Python\nSQL".data }

/-- A recent fragment whose company-name element is missing. -/
def fragNoCompany : Fragment := { fragComplete with comp_name := none }

/-- A recent fragment whose skills container is missing. -/
def fragNoSkills : Fragment := { fragComplete with srp_skills := none }

/-- The record `extract_job_details` produces from `fragComplete`. -/
def rec1 : JobRecord :=
  { title := "Data Analyst".data, company := "TCS".data,
    skills := ["python".data, "sql".data],
    link := "https://example.com/job1".data }

/-- A freshly constructed notifier with empty configuration strings. -/
def notifier0 : JobNotifier := JobNotifier.init [] [] [] []

/-- The run result of `notifier0` on a 200 response carrying exactly
`fragComplete`, in the all-success SMTP environment. -/
def res0 : RunResult :=
  { notifier := { notifier0 with jobs := [fragComplete] },
    records := [rec1], mailed := true,
    mail_trace := some { opened := true, closed := true, sent := true,
                         sent_message := some (pyMessage [rec1]),
                         log := [successMsg] },
    log := [successMsg] }

theorem pyContains_iff (needle hay : Str) :
    pyContains needle hay = true ↔ needle <:+: hay := by
  simp [pyContains]

theorem pyStrip_isEmpty_iff (s : Str) :
    (pyStrip s).isEmpty = true ↔ pyStrip s = [] := by
  cases h : pyStrip s <;> simp [List.isEmpty]

/-- C1: for fragments that do contain the `sim-posted` indicator,
`is_job_recent` answers `true` exactly when the trimmed indicator text is
non-empty and the lowered text contains "few"; "2 days ago" is not recent,
"a few days ago" is recent, empty and whitespace-only texts are not. -/
theorem is_job_recent_spec (job : Fragment) (t : Str)
    (h : job.sim_posted = some t) :
    (is_job_recent job = some true ↔
      (pyStrip t ≠ [] ∧ "few".data <:+: pyLower t))
    ∧ is_job_recent { job with sim_posted := some "2 days ago".data }
        = some false
    ∧ is_job_recent { job with sim_posted := some "a few days ago".data }
        = some true
    ∧ is_job_recent { job with sim_posted := some "".data } = some false
    ∧ is_job_recent { job with sim_posted := some "   ".data } = some false := by
  refine ⟨?_, by simp [is_job_recent]; decide, by simp [is_job_recent]; decide,
    by simp [is_job_recent]; decide, by simp [is_job_recent]; decide⟩
  simp only [is_job_recent, h, Option.some_inj, Bool.and_eq_true,
    Bool.not_eq_true', pyContains_iff]
  constructor
  · rintro ⟨h1, h2⟩
    refine ⟨fun he => ?_, h2⟩
    rw [← pyStrip_isEmpty_iff] at he
    simp [he] at h1
  · rintro ⟨h1, h2⟩
    refine ⟨?_, h2⟩
    cases he : (pyStrip t).isEmpty
    · rfl
    · exact absurd (pyStrip_isEmpty_iff t |>.mp he) h1

/-- Witness for C1 at concrete indicator texts. -/
theorem is_job_recent_spec_witness :
    is_job_recent { sim_posted := some "a few days ago".data,
                    h2_title := none, comp_name := none,
                    header_h2_a_href := none, srp_skills := none }
      = some true := by
  have h := is_job_recent_spec
    { sim_posted := some "a few days ago".data,
      h2_title := none, comp_name := none,
      header_h2_a_href := none, srp_skills := none }
    ("a few days ago".data) rfl
  exact h.1.mpr ⟨by decide, by decide⟩

/-- C4: a skills container whose text is "Python\nSQL\n \nExcel\n" yields the
skills sequence ["python", "sql", "excel"]: split at line breaks, each
segment trimmed and lower-cased, empty segments dropped, order kept. -/
theorem extract_skills_split_trim_lower (p : Option Str) (t c l : Str) :
    extract_job_details
      { sim_posted := p, h2_title := some t, comp_name := some c,
        header_h2_a_href := some l,
        srp_skills := some "Python\nSQL\n \nExcel\n".data }
      = some { title := pyStrip t, company := pyStrip c,
               skills := ["python".data, "sql".data, "excel".data],
               link := l } := by
  have hs : skillListOf ("Python\nSQL\n \nExcel\n".data)
      = ["python".data, "sql".data, "excel".data] := by decide
  simp [extract_job_details, hs]

/-- C3 (against the claim): on a recent fragment with title, company and
link elements but no skills container, `extract_job_details` does not
return a record at all — the Python code prints "Skills: Not found" and
then raises UnboundLocalError at `'skills': skill_list`, because
`skill_list` is only assigned inside the `if skills:` branch. -/
theorem extract_fails_without_skills_container :
    extract_job_details fragNoSkills = none := by rfl

/-- C2 (against the claim): a run whose first fragment is recent but lacks
the company element does not skip that fragment and continue — the
unchecked `company_name.text` dereference raises AttributeError and the
whole run aborts (`none`), so the complete recent fragment after it is
never processed either. -/
theorem run_aborts_on_missing_company :
    notifier0.run { status := 200, listings := [fragNoCompany, fragComplete] }
      envOk = none := by rfl

/-- C8 (against the claim): when `login` raises
`SMTPAuthenticationError`, the except clause only prints — the opened SMTP
session is never closed before `send_email_notification` returns; only the
fully successful path reaches `connection.close()`. -/
theorem mailer_leaks_session_on_auth_failure :
    (send_email_notification envAuthFail [rec1]).opened = true
    ∧ (send_email_notification envAuthFail [rec1]).closed = false
    ∧ (send_email_notification envAuthFail [rec1]).log
        = [exceptMsg SmtpError.authErr]
    ∧ (send_email_notification envOk [rec1]).closed = true := by
  refine ⟨rfl, rfl, rfl, rfl⟩

/-- C10: a non-200 response leaves the stored jobs untouched and
`fetch_jobs` returns the prior contents — the empty list on a fresh
notifier, the stale listings of an earlier 200 fetch when called again on
the same instance — while a 200 response overwrites the stored jobs. -/
theorem fetch_jobs_frame (n : JobNotifier) (resp resp2 : HttpResponse)
    (L : List Fragment) (h : resp.status ≠ 200) (h2 : resp2.status ≠ 200) :
    (n.fetch_jobs resp).notifier = n
    ∧ (n.fetch_jobs resp).jobs = n.jobs
    ∧ (∀ u fe te pw, ((JobNotifier.init u fe te pw).fetch_jobs resp).jobs = [])
    ∧ (n.fetch_jobs { status := 200, listings := L }).notifier.jobs = L
    ∧ ((n.fetch_jobs { status := 200, listings := L }).notifier.fetch_jobs
        resp2).jobs = L := by
  refine ⟨?_, ?_, ?_, ?_, ?_⟩
  · simp [JobNotifier.fetch_jobs, h]
  · simp [JobNotifier.fetch_jobs, h]
  · intro u fe te pw
    simp [JobNotifier.fetch_jobs, h, JobNotifier.init]
  · simp [JobNotifier.fetch_jobs]
  · simp [JobNotifier.fetch_jobs, h2]

/-- Witness for C10 at concrete statuses 404 and 500. -/
theorem fetch_jobs_frame_witness :
    (notifier0.fetch_jobs { status := 404, listings := [] }).notifier
        = notifier0
    ∧ (notifier0.fetch_jobs { status := 404, listings := [] }).jobs
        = notifier0.jobs
    ∧ (∀ u fe te pw, ((JobNotifier.init u fe te pw).fetch_jobs
        { status := 404, listings := [] }).jobs = [])
    ∧ (notifier0.fetch_jobs
        { status := 200, listings := [fragComplete] }).notifier.jobs
        = [fragComplete]
    ∧ ((notifier0.fetch_jobs
        { status := 200, listings := [fragComplete] }).notifier.fetch_jobs
        { status := 500, listings := [] }).jobs = [fragComplete] :=
  fetch_jobs_frame notifier0 { status := 404, listings := [] }
    { status := 500, listings := [] } [fragComplete] (by decide) (by decide)

/-- C5: on any non-200 response, a freshly constructed notifier's run
collects no records, never invokes the mailer, prints the failure line
(which contains the decimal status code) and the no-recent-jobs line. -/
theorem run_non200_no_mail (u fe te pw : Str) (resp : HttpResponse)
    (env : SmtpEnv) (h : resp.status ≠ 200) :
    (JobNotifier.init u fe te pw).run resp env
      = some { notifier := JobNotifier.init u fe te pw, records := [],
               mailed := false, mail_trace := none,
               log := [fetchFailMsg resp.status, noRecentMsg] }
    ∧ Nat.toDigits 10 resp.status <:+: fetchFailMsg resp.status := by
  constructor
  · simp [JobNotifier.run, JobNotifier.fetch_jobs, h, JobNotifier.init,
      processJobs]
  · exact (List.suffix_append _ _).isInfix

/-- Witness for C5 at status 404. -/
theorem run_non200_no_mail_witness :
    (JobNotifier.init [] [] [] []).run { status := 404, listings := [] } envOk
      = some { notifier := JobNotifier.init [] [] [] [], records := [],
               mailed := false, mail_trace := none,
               log := [fetchFailMsg 404, noRecentMsg] }
    ∧ Nat.toDigits 10 404 <:+: fetchFailMsg 404 :=
  run_non200_no_mail [] [] [] [] { status := 404, listings := [] } envOk
    (by decide)

theorem processJobs_eq_nil (L : List Fragment)
    (h : ∀ f ∈ L, is_job_recent f = some false) : processJobs L = some [] := by
  induction L with
  | nil => rfl
  | cons f rest ih =>
    have hf := h f (List.mem_cons_self f rest)
    simp only [processJobs, hf]
    exact ih fun g hg => h g (List.mem_cons_of_mem f hg)

/-- C6: on a 200 response all of whose fragments fail the recency test (in
particular, a response with zero listing containers), the run collects no
records, never invokes the mailer, and prints the no-recent-jobs line. -/
theorem run_no_recent_no_mail (n : JobNotifier) (resp : HttpResponse)
    (env : SmtpEnv) (h200 : resp.status = 200)
    (hrec : ∀ f ∈ resp.listings, is_job_recent f = some false) :
    n.run resp env
      = some { notifier := { n with jobs := resp.listings }, records := [],
               mailed := false, mail_trace := none, log := [noRecentMsg] } := by
  simp [JobNotifier.run, JobNotifier.fetch_jobs, h200,
    processJobs_eq_nil resp.listings hrec]

/-- Witness for C6 at a 200 response with zero listing containers. -/
theorem run_no_recent_no_mail_witness :
    notifier0.run { status := 200, listings := [] } envOk
      = some { notifier := { notifier0 with jobs := [] }, records := [],
               mailed := false, mail_trace := none, log := [noRecentMsg] } :=
  run_no_recent_no_mail notifier0 { status := 200, listings := [] } envOk
    rfl (by simp)

theorem processJobs_sound (L : List Fragment) (records : List JobRecord)
    (h : processJobs L = some records) :
    ∀ r ∈ records, ∃ f, f ∈ L ∧ is_job_recent f = some true
      ∧ extract_job_details f = some r := by
  induction L generalizing records with
  | nil =>
    simp only [processJobs, Option.some_inj] at h
    simp [← h]
  | cons job rest ih =>
    intro r hr
    simp only [processJobs] at h
    cases hrec : is_job_recent job with
    | none => simp [hrec] at h
    | some b =>
      cases b with
      | false =>
        simp only [hrec] at h
        have h2 : processJobs rest = some records := by simpa using h
        obtain ⟨f, hf, hft, hfe⟩ := ih records h2 r hr
        exact ⟨f, List.mem_cons_of_mem job hf, hft, hfe⟩
      | true =>
        simp only [hrec] at h
        cases hext : extract_job_details job with
        | none => simp [hext] at h
        | some details =>
          cases hrest : processJobs rest with
          | none => simp [hext, hrest] at h
          | some rs =>
            have h2 : details :: rs = records := by
              simpa [hext, hrest] using h
            rw [← h2] at hr
            rcases List.mem_cons.mp hr with heq | hmem
            · exact ⟨job, List.mem_cons_self job rest, hrec, heq ▸ hext⟩
            · obtain ⟨f, hf, hft, hfe⟩ := ih rs hrest r hmem
              exact ⟨f, List.mem_cons_of_mem job hf, hft, hfe⟩

/-- C9: in every run that terminates without an uncaught exception, each
accumulated record originates from a fragment of the fetched listing that
passed the recency test, and is exactly the extraction of that fragment —
extraction is invoked only on fragments for which `is_job_recent` holds. -/
theorem records_only_from_recent (n : JobNotifier) (resp : HttpResponse)
    (env : SmtpEnv) (res : RunResult) (h : n.run resp env = some res) :
    ∀ r ∈ res.records, ∃ f, f ∈ (n.fetch_jobs resp).jobs
      ∧ is_job_recent f = some true ∧ extract_job_details f = some r := by
  have hrec : processJobs (n.fetch_jobs resp).jobs = some res.records := by
    cases hp : processJobs (n.fetch_jobs resp).jobs with
    | none => simp [JobNotifier.run, hp] at h
    | some all_jobs =>
      simp only [JobNotifier.run, hp] at h
      by_cases he : all_jobs.isEmpty
      · rw [if_pos he] at h
        have hres := Option.some_inj.mp h
        subst hres
        rfl
      · rw [if_neg he] at h
        have hres := Option.some_inj.mp h
        subst hres
        rfl
  exact processJobs_sound _ _ hrec

/-- Witness for C9: a run over one complete recent fragment, instantiated at
the one record it collects. -/
theorem records_only_from_recent_witness :
    ∃ f,
      f ∈ (notifier0.fetch_jobs { status := 200, listings := [fragComplete] }).jobs
      ∧ is_job_recent f = some true ∧ extract_job_details f = some rec1 :=
  records_only_from_recent notifier0
    { status := 200, listings := [fragComplete] } envOk res0 (by rfl) rec1
    (by decide)

theorem infix_append_right (s : Str) {l t : Str} (h : l <:+: t) :
    l <:+: s ++ t :=
  h.trans (List.suffix_append s t).isInfix

theorem foldl_jobBlock (all_jobs : List JobRecord) (acc : Str) :
    List.foldl (fun html_body job => html_body ++ jobBlock job) acc all_jobs
      = acc ++ (all_jobs.map jobBlock).flatten := by
  induction all_jobs generalizing acc with
  | nil => simp
  | cons job rest ih => simp [List.foldl_cons, ih, List.append_assoc]

theorem composeBody_eq (all_jobs : List JobRecord) :
    composeBody all_jobs
      = digestHeader ++ (all_jobs.map jobBlock).flatten ++ digestFooter := by
  simp [composeBody, foldl_jobBlock, List.append_assoc]

set_option maxRecDepth 8192

theorem title_infix_jobBlock (job : JobRecord) : job.title <:+: jobBlock job :=
  ⟨blockPre, blockAfterTitle ++ job.company ++ blockAfterCompany ++
    commaJoin job.skills ++ blockAfterSkills ++ job.link ++ blockAfterLink,
   by simp [jobBlock, List.append_assoc]⟩

theorem company_infix_jobBlock (job : JobRecord) :
    job.company <:+: jobBlock job :=
  ⟨blockPre ++ job.title ++ blockAfterTitle,
   blockAfterCompany ++ commaJoin job.skills ++ blockAfterSkills ++
     job.link ++ blockAfterLink, by simp [jobBlock, List.append_assoc]⟩

theorem skills_infix_jobBlock (job : JobRecord) :
    commaJoin job.skills <:+: jobBlock job :=
  ⟨blockPre ++ job.title ++ blockAfterTitle ++ job.company ++
     blockAfterCompany,
   blockAfterSkills ++ job.link ++ blockAfterLink,
   by simp [jobBlock, List.append_assoc]⟩

theorem link_infix_jobBlock (job : JobRecord) : job.link <:+: jobBlock job :=
  ⟨blockPre ++ job.title ++ blockAfterTitle ++ job.company ++
     blockAfterCompany ++ commaJoin job.skills ++ blockAfterSkills,
   blockAfterLink, by simp [jobBlock, List.append_assoc]⟩

theorem anchor_infix_jobBlock (job : JobRecord) :
    applyAnchor job.link <:+: jobBlock job :=
  ⟨blockPre ++ job.title ++ blockAfterTitle ++ job.company ++
     blockAfterCompany ++ commaJoin job.skills ++
     "</p>\n                        <p style=\"margin: 5px 0;\">".data,
   "</p>\n                    </div>\n                ".data,
   by simp [jobBlock, blockAfterSkills, blockAfterLink, applyAnchor,
     List.append_assoc]⟩

theorem applyNow_infix_anchorClose : "Apply Now".data <:+: anchorClose := by
  decide

theorem jobBlock_infix_composeBody {job : JobRecord}
    {all_jobs : List JobRecord} (h : job ∈ all_jobs) :
    jobBlock job <:+: composeBody all_jobs := by
  rw [composeBody_eq]
  exact (List.infix_of_mem_flatten (List.mem_map_of_mem jobBlock h)).trans
    (List.infix_append digestHeader _ digestFooter)

/-- C7: the digest composed from a non-empty record sequence is one fixed
header, then exactly one rendered block per record in input order, then one
fixed footer; each record's title, company, comma-joined skills and link
appear verbatim in the output, as does the full "Apply Now" anchor whose
href is the record's link (and that anchor carries the "Apply Now" label). -/
theorem compose_digest_blocks (all_jobs : List JobRecord)
    (_h : all_jobs ≠ []) :
    composeBody all_jobs
      = digestHeader ++ (all_jobs.map jobBlock).flatten ++ digestFooter
    ∧ (all_jobs.map jobBlock).length = all_jobs.length
    ∧ ∀ job ∈ all_jobs,
        job.title <:+: composeBody all_jobs
        ∧ job.company <:+: composeBody all_jobs
        ∧ commaJoin job.skills <:+: composeBody all_jobs
        ∧ job.link <:+: composeBody all_jobs
        ∧ applyAnchor job.link <:+: composeBody all_jobs
        ∧ "Apply Now".data <:+: applyAnchor job.link := by
  refine ⟨composeBody_eq all_jobs, by simp, ?_⟩
  intro job hj
  have hb := jobBlock_infix_composeBody hj
  refine ⟨(title_infix_jobBlock job).trans hb,
    (company_infix_jobBlock job).trans hb,
    (skills_infix_jobBlock job).trans hb,
    (link_infix_jobBlock job).trans hb,
    (anchor_infix_jobBlock job).trans hb, ?_⟩
  rw [applyAnchor]
  exact infix_append_right (anchorOpen ++ job.link) applyNow_infix_anchorClose

/-- Witness for C7 at the one-record sequence `[rec1]`. -/
theorem compose_digest_blocks_witness :
    composeBody [rec1]
      = digestHeader ++ ([rec1].map jobBlock).flatten ++ digestFooter
    ∧ ([rec1].map jobBlock).length = [rec1].length
    ∧ ∀ job ∈ [rec1],
        job.title <:+: composeBody [rec1]
        ∧ job.company <:+: composeBody [rec1]
        ∧ commaJoin job.skills <:+: composeBody [rec1]
        ∧ job.link <:+: composeBody [rec1]
        ∧ applyAnchor job.link <:+: composeBody [rec1]
        ∧ "Apply Now".data <:+: applyAnchor job.link :=
  compose_digest_blocks [rec1] (by simp)

/-- Witness for C4 at concrete title/company/link texts. -/
theorem extract_skills_split_trim_lower_witness :
    extract_job_details
      { sim_posted := some "Posted a few days ago".data,
        h2_title := some " Data Analyst ".data,
        comp_name := some "TCS".data,
        header_h2_a_href := some "https://example.com/job1".data,
        srp_skills := some "Python\nSQL\n \nExcel\n".data }
      = some { title := pyStrip (" Data Analyst ".data),
               company := pyStrip ("TCS".data),
               skills := ["python".data, "sql".data, "excel".data],
               link := "https://example.com/job1".data } :=
  extract_skills_split_trim_lower (some "Posted a few days ago".data)
    (" Data Analyst ".data) ("TCS".data) ("https://example.com/job1".data)
